import Mathlib

/-!
Verification of the You_TweeT backend against its specification.

The development shallowly embeds the request handlers of the repository
(user controller, video controller, subscription controller) as pure Lean
functions over an explicit database state.  A handler that throws an
`ApiError` is embedded as `Except ApiError _`; `res.status(..).json(..)`
becomes the returned `ApiResponse`.  MongoDB documents become Lean
structures; `ObjectId` values are represented by the strings the code
compares (`toString` equality in the source); collection queries
(`findOne`, `findById`, aggregation `$match`/`$lookup`/`$in`) become
`List.find?` / `List.filter` / membership over the collection lists.
-/

namespace YouTweet

/-- The mongoose `isValidObjectId` check: accepts a 12-character string or a
24-character hex string (the two string forms accepted by
`ObjectId.isValid`). -/
def isValidObjectId (s : String) : Bool :=
  s.length == 12 ||
    (s.length == 24 &&
      s.toList.all (fun c =>
        c.isDigit || (Char.ofNat 97 ≤ c && c ≤ Char.ofNat 102) ||
          (Char.ofNat 65 ≤ c && c ≤ Char.ofNat 70)))

/-- JavaScript `String.prototype.trim()`, implemented over the character
list so that it evaluates inside Lean (the library `String.trim` is an
irreducible extern): drop whitespace from both ends. -/
def jsTrim (s : String) : String :=
  ⟨(((s.data.dropWhile Char.isWhitespace).reverse).dropWhile Char.isWhitespace).reverse⟩

/-- JavaScript `String.prototype.toLowerCase()`, implemented over the
character list so that it evaluates inside Lean. -/
def jsToLower (s : String) : String :=
  ⟨s.data.map Char.toLower⟩

/-- Whether `needle` is a prefix of `hay` (character lists). -/
def isPrefixChars : List Char → List Char → Bool
  | [], _ => true
  | _ :: _, [] => false
  | c :: cs, d :: ds => c == d && isPrefixChars cs ds

/-- Whether `needle` occurs as a contiguous substring of `hay`
(character lists); the empty needle matches everywhere. -/
def containsChars (needle : List Char) : List Char → Bool
  | [] => isPrefixChars needle []
  | c :: t => isPrefixChars needle (c :: t) || containsChars needle t

/-- A signed JWT, embedded structurally: the identity claim carried in the
payload (`_id`), an issue counter standing for the `iat`/`exp` claims
(successive tokens for the same account are distinct strings because these
claims differ), and the secret the token was signed with.  `jwt.verify`
succeeds exactly when the verifying secret matches the signing secret. -/
structure Jwt where
  _id : String
  iat : Nat
  secret : String
deriving DecidableEq, Repr

/-- Embeds `jwt.verify(token, secret)`: returns the decoded `_id` claim on
success, `none` when the signature check fails (the library then throws a
`JsonWebTokenError`). -/
def jwtVerify (t : Jwt) (secret : String) : Option String :=
  if t.secret == secret then some t._id else none

/-- A document of the `users` collection (fields as written by the
handlers in the sources; the schema file itself is not among the
sources). -/
structure UserRec where
  _id : String
  username : String
  email : String
  password : String
  fullName : String
  avatar : String
  coverImage : String
  refreshToken : Option Jwt
  watchHistory : List String
deriving DecidableEq, Repr

/-- A document of the `videos` collection. -/
structure VideoRec where
  _id : String
  title : String
  description : String
  duration : Nat
  thumbnail : String
  videoFile : String
  owner : String
  views : Nat
  isPublished : Bool
deriving DecidableEq, Repr

/-- A document of the `subscriptions` collection: a directed edge
subscriber → channel. -/
structure SubRec where
  _id : String
  subscriber : String
  channel : String
deriving DecidableEq, Repr

/-- The database state: the three collections. -/
structure DB where
  users : List UserRec
  videos : List VideoRec
  subs : List SubRec
deriving DecidableEq, Repr

/-- Modelled from the spec: the `ApiError` class lives in `src/utils`,
which is not among the sources; per the error-handling design it carries a
numeric status code and a human-readable message. -/
structure ApiError where
  statusCode : Nat
  message : String
deriving DecidableEq, Repr

/-- Modelled from the spec: the response envelope
`{ statusCode, success, message, data }` (the `ApiResponse` class in
`src/utils` is not among the sources).  The constructor takes
`(statusCode, message, data)`, the argument order used at every call site
in the sources; `success` is derived from the status code.  A call site
passing extra arguments beyond these three has them discarded, as
JavaScript discards arguments beyond a function's parameter list. -/
structure ApiResponse (α : Type) where
  statusCode : Nat
  message : String
  data : α
deriving DecidableEq, Repr

/-- The derived `success` flag of the envelope: true on success responses,
false on error statuses. -/
def ApiResponse.success {α : Type} (r : ApiResponse α) : Bool :=
  r.statusCode < 400

/-- Modelled from the spec: `uploadOnCloudinary` (media delegation layer,
`src/utils` is not among the sources) uploads the local file and returns a
stable URL for it. -/
def uploadOnCloudinary (localPath : String) : String :=
  "https://res.cloudinary.example/" ++ localPath

/-- The fixed fallback cover-image URL used by `register` when no cover
image is supplied. -/
def defaultCoverImage : String :=
  "https://images.unsplash.com/photo-1545486332-9e0999c535b2"

/-- The body and files of a registration request.  `Option` stands for a
field that may be absent from `req.body` / `req.files`. -/
structure RegisterReq where
  username : Option String
  email : Option String
  password : Option String
  fullName : Option String
  avatarPath : Option String
  coverImagePath : Option String
deriving DecidableEq, Repr

/-- Embeds `User.findOne` with the `$or` filter on username and email.  A field whose
value is `undefined` is dropped from its `$or` branch by the query layer,
leaving the empty filter, which matches every document; so with a missing
username (or email) the query matches the first user in the collection. -/
def findOneByUsernameOrEmail (users : List UserRec) (username email : Option String) :
    Option UserRec :=
  users.find? (fun u =>
    (match username with
     | some s => s == u.username
     | none => true) ||
    (match email with
     | some s => s == u.email
     | none => true))

/-- The `register` handler (user controller).  `freshId` models the
`_id` the database assigns to the created document.

Control flow mirrors the source:
1. `[username, email, password, fullName].some((field) => field?.trim() === "")`
   — for a missing field, optional chaining yields `undefined`, and
   `undefined === ""` is false, so only a present-but-blank field trips
   this check;
2. duplicate lookup by `$or` on the raw `username` / `email`;
3. avatar file required;
4. `User.create({ username: username.toLowerCase(), ... })` — the stored
   username is lowercased even though step 2 compared the raw value.
   If `username` is `undefined` here, `username.toLowerCase()` raises a
   `TypeError`; if another of the four fields is `undefined`, the schema's
   required-field validation rejects the create; either way the failure is
   not an `ApiError` thrown by the handler and the top-level error handler
   converts it into a generic 500. -/
def register (db : DB) (freshId : String) (req : RegisterReq) :
    Except ApiError (ApiResponse UserRec × DB) :=
  if [req.username, req.email, req.password, req.fullName].any
      (fun f => (f.map jsTrim) == some "") then
    .error ⟨400, "All fields are required"⟩
  else
    match findOneByUsernameOrEmail db.users req.username req.email with
    | some _ => .error ⟨400, "Username or email already exists"⟩
    | none =>
      match req.avatarPath with
      | none => .error ⟨400, "Please provide an avatar"⟩
      | some avatarPath =>
        match req.username, req.email, req.password, req.fullName with
        | some username, some email, some password, some fullName =>
          let avatar := uploadOnCloudinary avatarPath
          let coverImage :=
            match req.coverImagePath with
            | some p => uploadOnCloudinary p
            | none => defaultCoverImage
          let user : UserRec :=
            { _id := freshId
              username := jsToLower username
              email := email
              password := password
              fullName := fullName
              avatar := avatar
              coverImage := coverImage
              refreshToken := none
              watchHistory := [] }
          .ok (⟨201, "User created", user⟩,
               { db with users := db.users ++ [user] })
        | _, _, _, _ => .error ⟨500, "Internal server error"⟩

/-- The `generateAccessAndRefreshTokens` helper: loads the user, signs a fresh
access/refresh pair and persists the refresh token on the user record.
`now` models the clock value that enters the tokens' `iat`/`exp` claims.
If the user lookup yields nothing, calling `generateAccessToken` on `null`
throws, and the local try/catch converts it into the 500 below. -/
def generateAccessAndRefreshTokens (db : DB) (userId : String)
    (accessSecret refreshSecret : String) (now : Nat) :
    Except ApiError (Jwt × Jwt × DB) :=
  match db.users.find? (fun u => u._id == userId) with
  | none =>
    .error ⟨500, "Something went wrong while generating refresh and access token"⟩
  | some _ =>
    let accessToken : Jwt := ⟨userId, now, accessSecret⟩
    let refreshToken : Jwt := ⟨userId, now, refreshSecret⟩
    .ok (accessToken, refreshToken,
         { db with
             users := db.users.map (fun u =>
               if u._id == userId then { u with refreshToken := some refreshToken }
               else u) })

/-- The `refreshAccessToken` handler.  The absent-token 401 is thrown
before the handler's try block and reaches the client unchanged.  Inside
the try block, a failed `jwt.verify` throws a `JsonWebTokenError`, which
the catch maps to 403 with the library's message; but the handler's own
`ApiError(401, "Invalid refresh token")` (unknown account, or a token that
does not equal the stored one) is also caught by the same catch, is not a
`JsonWebTokenError`, and is re-thrown as status 500 with its message
preserved — the 401 never escapes. -/
def refreshAccessToken (db : DB) (incoming : Option Jwt)
    (accessSecret refreshSecret : String) (now : Nat) :
    Except ApiError (ApiResponse (Jwt × Jwt) × DB) :=
  match incoming with
  | none => .error ⟨401, "unauthorized request"⟩
  | some tok =>
    match jwtVerify tok refreshSecret with
    | none => .error ⟨403, "invalid signature"⟩
    | some decodedId =>
      match db.users.find? (fun u => u._id == decodedId) with
      | none => .error ⟨500, "Invalid refresh token"⟩
      | some foundUser =>
        if some tok != foundUser.refreshToken then
          .error ⟨500, "Invalid refresh token"⟩
        else
          match generateAccessAndRefreshTokens db foundUser._id accessSecret
              refreshSecret now with
          | .error e => .error ⟨500, e.message⟩
          | .ok (accessToken, newRefreshToken, db1) =>
            .ok (⟨200, "Access token refreshed", (accessToken, newRefreshToken)⟩, db1)

/-- A BSON value as it occurs in the `$in` test of the channel-profile
pipeline: either an ObjectId, or a whole subscription document.  BSON
equality never equates values of different types. -/
inductive BsonVal where
  | oid (id : String)
  | subDoc (s : SubRec)
deriving DecidableEq, Repr

/-- BSON equality on `BsonVal`: structural equality within a type, false
across types. -/
def bsonEq (a b : BsonVal) : Bool := a == b

/-- The document produced for `channel[0]` by the `getUserChannelProfile`
aggregation (the projected-out `password`/`refreshToken` are not
modelled). -/
structure ChannelProfile where
  user : UserRec
  subscribersCount : Nat
  subscribedToCount : Nat
  isSubscribed : Bool
deriving DecidableEq, Repr

/-- The `getUserChannelProfile` handler.  The pipeline:
`$match` on the exact username; `subscribers` = subscription documents
whose `channel` is this user; `subscribedTo` = subscription documents
whose `subscriber` is this user; the counts are the two array sizes; and
`isSubscribed` is `$in: [req.user?._id, "$subscribedTo"]` — the
requester's ObjectId tested for membership in the array of whole
subscription documents (not in an array of their `subscriber` fields). -/
def getUserChannelProfile (db : DB) (requesterId : String) (username : String) :
    Except ApiError (ApiResponse ChannelProfile) :=
  if jsTrim username == "" then .error ⟨400, "user name is missing"⟩
  else
    match db.users.find? (fun u => u.username == username) with
    | none => .error ⟨404, "channel does not exist"⟩
    | some u =>
      let subscribers := db.subs.filter (fun s => s.channel == u._id)
      let subscribedTo := db.subs.filter (fun s => s.subscriber == u._id)
      let isSubscribed :=
        subscribedTo.any (fun s => bsonEq (.oid requesterId) (.subDoc s))
      .ok ⟨200, "success",
           ⟨u, subscribers.length, subscribedTo.length, isSubscribed⟩⟩

/-- Case-insensitive substring test, the semantics of
`{ $regex: query, $options: "i" }` for a plain-text query: the empty
query matches everything. -/
def regexMatchI (hay needle : String) : Bool :=
  containsChars (jsToLower needle).data (jsToLower hay).data

/-- The page object shaped by `getAllTheVideos` from the paginate
result. -/
structure VideoPage where
  videos : List VideoRec
  totalVideos : Nat
  totalPages : Nat
  currentPage : Nat
deriving DecidableEq, Repr

/-- Embeds `Video.paginate(searchQuery, options)` for the free-text search query
built by `getAllTheVideos`: filter to videos whose title or description
matches the query case-insensitively, then slice out the requested page.
The sort permutation is delegated to the database engine (an external
collaborator) and is not modelled; no claim concerns result order. -/
def paginateVideos (videos : List VideoRec) (page limit : Nat) (query : String) :
    VideoPage :=
  let docs := videos.filter (fun v =>
    regexMatchI v.title query || regexMatchI v.description query)
  { videos := (docs.drop ((page - 1) * limit)).take limit
    totalVideos := docs.length
    totalPages := (docs.length + limit - 1) / limit
    currentPage := page }

/-- The `getAllTheVideos` handler.  After the sort-type allow-list check,
the owner-scoping branch runs
`if (userId && mongoose.Types.ObjectId.isValid(userId))`; the file imports
only `{ isValidObjectId }` from mongoose, so once `userId` is truthy the
reference to `mongoose` raises a `ReferenceError`, which the top-level
error handler converts into a generic 500 — the owner filter is never
applied.  A falsy (absent or empty) `userId` short-circuits the `&&` and
the unscoped query proceeds normally. -/
def getAllTheVideos (db : DB) (page limit : Nat) (_sortBy sortType : String)
    (query : String) (userId : Option String) :
    Except ApiError (ApiResponse VideoPage) :=
  if !(jsToLower sortType == "asc" || jsToLower sortType == "desc") then
    .error ⟨400, "Invalid sort type"⟩
  else if (match userId with | some uid => uid != "" | none => false) then
    .error ⟨500, "Internal server error"⟩
  else
    .ok ⟨200, "Videos fetched successfully", paginateVideos db.videos page limit query⟩

/-- The `getSingleVideo` handler.  Everything after the id-format check
sits inside one try/catch whose catch throws
`ApiError(500, "Failed to fetch video")`; in particular the handler's own
`ApiError(404, "Video not found")` for a missing video is caught there
and replaced by that 500 — the 404 never escapes.  On the found path:
`findByIdAndUpdate(videoId, { $inc: { views: 1 } }, { new: true })`
increments the stored view counter and yields the updated document
(`_id` is the collection's unique key, so the update touches exactly the
matched document); then, for an authenticated requester, the video id is
appended to the requester's `watchHistory` unless already present.
The `populate` of the owner only reshapes the response document and is
not modelled. -/
def getSingleVideo (db : DB) (requesterId : Option String) (videoId : String) :
    Except ApiError (ApiResponse VideoRec × DB) :=
  if !(isValidObjectId videoId) then .error ⟨400, "Invalid video id"⟩
  else
    match db.videos.find? (fun v => v._id == videoId) with
    | none => .error ⟨500, "Failed to fetch video"⟩
    | some v =>
      let videos := db.videos.map (fun x =>
        if x._id == videoId then { x with views := x.views + 1 } else x)
      let users :=
        match requesterId with
        | none => db.users
        | some uid =>
          match db.users.find? (fun u => u._id == uid) with
          | none => db.users
          | some u =>
            if u.watchHistory.contains videoId then db.users
            else db.users.map (fun x =>
              if x._id == uid then { x with watchHistory := x.watchHistory ++ [videoId] }
              else x)
      .ok (⟨200, "Video fetched successfully", { v with views := v.views + 1 }⟩,
           { db with videos := videos, users := users })

/-- The database state after one `getSingleVideo` call (the state is
unchanged when the call fails). -/
def viewStep (db : DB) (requesterId : Option String) (videoId : String) : DB :=
  match getSingleVideo db requesterId videoId with
  | .ok (_, db1) => db1
  | .error _ => db

/-- The database state after `n` sequential `getSingleVideo` calls by the
same requester on the same video. -/
def viewTimes : Nat → DB → Option String → String → DB
  | 0, db, _, _ => db
  | Nat.succ n, db, rid, vid => viewTimes n (viewStep db rid vid) rid vid

/-- The payload of a `toggleSubscription` response: the boolean `false` on
the unsubscribe branch, the created subscription document on the
subscribe branch. -/
inductive TogglePayload where
  | bool (b : Bool)
  | sub (s : SubRec)
deriving DecidableEq, Repr

/-- The `toggleSubscription` handler.  If an edge
(subscriber = requester, channel) exists, `findByIdAndDelete` removes that
document and the response is `ApiResponse(200, "Unsubscribed successfully",
false)`.  Otherwise an edge is created and the call is
`ApiResponse(200, "Subscribed successfully", newSubscription, true)`: the
envelope constructor has three parameters, so the trailing `true` is
discarded and the payload is the created subscription document. -/
def toggleSubscription (db : DB) (userId channelId freshId : String) :
    Except ApiError (ApiResponse TogglePayload × DB) :=
  if !(isValidObjectId channelId) then .error ⟨400, "Invalid channel id"⟩
  else
    match db.subs.find? (fun s => s.subscriber == userId && s.channel == channelId) with
    | some s =>
      .ok (⟨200, "Unsubscribed successfully", .bool false⟩,
           { db with subs := db.subs.filter (fun x => x._id != s._id) })
    | none =>
      let newSub : SubRec := ⟨freshId, userId, channelId⟩
      .ok (⟨200, "Subscribed successfully", .sub newSub⟩,
           { db with subs := db.subs ++ [newSub] })

/-- One entry of the resolved watch history: the video document with its
owner resolved to a user document (the `$lookup` leaves at most one owner;
the projection to a public field subset is not modelled). -/
structure HistoryVideo where
  video : VideoRec
  owner : Option UserRec
deriving DecidableEq, Repr

/-- The `getWatchHistory` handler.  The aggregation matches the
authenticated user's `_id` and `$lookup`-resolves the `watchHistory`
reference list into video documents (a reference matching no video is
dropped by the lookup), each with its owner resolved.  If the `$match`
finds no user, the aggregate is empty and the handler returns
`res.status(404).json(new ApiResponse(404, "Watch history not found"))`
— a returned 404 envelope with no data, not a thrown error.  (The
`!userWatchHistory[0].watchHistory` disjunct never fires: after the
lookup the field is always an array, and an empty array is truthy.)  With
the user found, the resolved list — possibly empty — is returned with
status 200. -/
def getWatchHistory (db : DB) (userId : String) :
    ApiResponse (Option (List HistoryVideo)) :=
  match db.users.find? (fun u => u._id == userId) with
  | none => ⟨404, "Watch history not found", none⟩
  | some u =>
    let resolved := u.watchHistory.filterMap (fun vid =>
      (db.videos.find? (fun v => v._id == vid)).map (fun v =>
        ⟨v, db.users.find? (fun ou => ou._id == v.owner)⟩))
    ⟨200, "success", some resolved⟩

/-! ### Concrete fixtures used by counterexamples and witnesses -/

/-- A registered user (ids are 12-character strings, which
`isValidObjectId` accepts). -/
def uAlice : UserRec :=
  ⟨"aaaaaaaaaaaa", "alice", "alice@mail.example", "pw-hash", "Alice Example",
   "https://cdn.example/av.png", "https://cdn.example/cov.png", none, []⟩

/-- A second registered user, viewed as a channel. -/
def uChan : UserRec :=
  ⟨"cccccccccccc", "chan", "chan@mail.example", "pw-hash", "Chan Example",
   "https://cdn.example/av2.png", "https://cdn.example/cov2.png", none, []⟩

/-- An unpublished (draft) video owned by `uChan` with no views yet. -/
def vDraft : VideoRec :=
  ⟨"dddddddddddd", "Draft title", "Draft description", 42,
   "https://cdn.example/th.png", "https://cdn.example/vid.mp4",
   "cccccccccccc", 0, false⟩

/-- A subscription edge: `uAlice` subscribes to `uChan`. -/
def subAC : SubRec := ⟨"ssssssssssss", "aaaaaaaaaaaa", "cccccccccccc"⟩

/-- State of `uAlice` after a login that stored the current refresh token
(issue counter 2). -/
def uAliceLoggedIn : UserRec :=
  { uAlice with refreshToken := some ⟨"aaaaaaaaaaaa", 2, "refresh-secret"⟩ }

/-- A refresh token for `uAlice` signed with the correct refresh secret
but from an earlier rotation (issue counter 1): signature-valid yet not
the stored token. -/
def staleRefreshToken : Jwt := ⟨"aaaaaaaaaaaa", 1, "refresh-secret"⟩

/-- A registration request for username `Alice` (note the capital letter)
with every field present and non-blank. -/
def regAliceFirst : RegisterReq :=
  ⟨some "Alice", some "a1@mail.example", some "secret1", some "Alice Example",
   some "alice.png", none⟩

/-- A second registration request with the same username `Alice` and a
different email. -/
def regAliceSecond : RegisterReq :=
  ⟨some "Alice", some "a2@mail.example", some "secret2", some "Alice Two",
   some "alice2.png", none⟩

/-- Registering `regAliceFirst` on an empty database and then
`regAliceSecond` on the resulting state. -/
def regTwiceResult : Except ApiError (ApiResponse UserRec × DB) :=
  match register ⟨[], [], []⟩ "aaaaaaaaaaaa" regAliceFirst with
  | .ok (_, db1) => register db1 "bbbbbbbbbbbb" regAliceSecond
  | .error e => .error e

/-- A registration request whose username field is absent entirely (the
other fields are present and non-blank). -/
def regMissingUsername : RegisterReq :=
  ⟨none, some "a3@mail.example", some "secret3", some "No Name",
   some "noname.png", none⟩

/-- A registration request matching `uAlice`'s stored username exactly. -/
def regConflictsWithAlice : RegisterReq :=
  ⟨some "alice", some "fresh@mail.example", some "secret4", some "Other Person",
   some "other.png", none⟩

/-- A registration request whose fullName field is present but blank
after trimming. -/
def regBlankFullName : RegisterReq :=
  ⟨some "carol", some "carol@mail.example", some "secret5", some "   ",
   some "carol.png", none⟩

/-! ### Helper lemmas -/

/-- If some member of a list satisfies the predicate, `find?` returns a
result. -/
theorem find?_isSome_of_mem {α : Type} (p : α → Bool) (l : List α) (x : α)
    (hx : x ∈ l) (hp : p x = true) : ∃ y, l.find? p = some y := by
  induction l with
  | nil => cases hx
  | cons a l ih =>
    by_cases h : p a = true
    · exact ⟨a, by simp [List.find?_cons, h]⟩
    · rcases List.mem_cons.mp hx with rfl | hx1
      · exact absurd hp h
      · rcases ih hx1 with ⟨y, hy⟩
        exact ⟨y, by simp [List.find?_cons, h, hy]⟩

/-- Updating, by key, every record matching `k` commutes with looking the
key up: the lookup after the update is the updated lookup.  `hf`: the
update does not change the key. -/
theorem find?_map_keyed {α : Type} (key : α → String) (f : α → α)
    (hf : ∀ x, key (f x) = key x) (k : String) (l : List α) :
    (l.map (fun x => if key x == k then f x else x)).find? (fun x => key x == k) =
      (l.find? (fun x => key x == k)).map f := by
  induction l with
  | nil => rfl
  | cons a l ih =>
    by_cases h : (key a == k) = true
    · have h2 : (key (f a) == k) = true := by rw [hf]; exact h
      simp only [List.map_cons, if_pos h]
      simp only [List.find?_cons, h2, h, Option.map_some']
    · have hb : (key a == k) = false := by simpa using h
      simp only [List.map_cons, if_neg h]
      simp only [List.find?_cons, hb, ih]

/-- A successful `getSingleVideo` call increments the stored view counter
of the fetched video by exactly one. -/
theorem viewStep_videos (db : DB) (rid : Option String) (vid : String) (v : VideoRec)
    (hvalid : isValidObjectId vid = true)
    (hv : db.videos.find? (fun x => x._id == vid) = some v) :
    (viewStep db rid vid).videos.find? (fun x => x._id == vid) =
      some { v with views := v.views + 1 } := by
  simp only [viewStep, getSingleVideo, hvalid, Bool.not_true, Bool.false_eq_true,
    if_false, hv]
  rw [find?_map_keyed (fun x => x._id) (fun x => { x with views := x.views + 1 })
    (fun x => rfl) vid db.videos, hv, Option.map_some']

/-- A successful `getSingleVideo` call by an authenticated requester
leaves the requester's stored record unchanged when the video is already
in the watch history, and appends the video id otherwise. -/
theorem viewStep_users (db : DB) (uid vid : String) (v : VideoRec) (u : UserRec)
    (hvalid : isValidObjectId vid = true)
    (hv : db.videos.find? (fun x => x._id == vid) = some v)
    (hu : db.users.find? (fun x => x._id == uid) = some u) :
    (viewStep db (some uid) vid).users.find? (fun x => x._id == uid) =
      some (if u.watchHistory.contains vid then u
            else { u with watchHistory := u.watchHistory ++ [vid] }) := by
  simp only [viewStep, getSingleVideo, hvalid, Bool.not_true, Bool.false_eq_true,
    if_false, hv, hu]
  by_cases hc : u.watchHistory.contains vid = true
  · simp only [hc, if_true, if_pos hc, hu]
  · have hcf : u.watchHistory.contains vid = false := by simpa using hc
    simp only [hcf, Bool.false_eq_true, if_false, if_neg hc]
    rw [find?_map_keyed (fun x => x._id)
      (fun x => { x with watchHistory := x.watchHistory ++ [vid] })
      (fun x => rfl) uid db.users, hu, Option.map_some']

/-- Once the requester's watch history already contains the video,
further sequential `getSingleVideo` calls add `n` views and leave the
requester's record untouched. -/
theorem viewTimes_stable (n : Nat) (db : DB) (uid vid : String) (v : VideoRec)
    (u : UserRec)
    (hvalid : isValidObjectId vid = true)
    (hv : db.videos.find? (fun x => x._id == vid) = some v)
    (hu : db.users.find? (fun x => x._id == uid) = some u)
    (hmem : u.watchHistory.contains vid = true) :
    (viewTimes n db (some uid) vid).videos.find? (fun x => x._id == vid) =
      some { v with views := v.views + n } ∧
    (viewTimes n db (some uid) vid).users.find? (fun x => x._id == uid) = some u := by
  induction n generalizing db v with
  | zero => exact ⟨by simpa using hv, hu⟩
  | succ n ih =>
    have hv1 := viewStep_videos db (some uid) vid v hvalid hv
    have hu1 := viewStep_users db uid vid v u hvalid hv hu
    rw [hmem, if_pos rfl] at hu1
    have hmain := ih (viewStep db (some uid) vid) { v with views := v.views + 1 } hv1 hu1
    refine ⟨?_, hmain.2⟩
    have harith : v.views + 1 + n = v.views + (n + 1) := by omega
    simpa [viewTimes, harith] using hmain.1

/-- C9: for every sequence of `n ≥ 1` sequential `getSingleVideo` calls
on the same existing video by the same authenticated user (whose watch
history does not yet contain the video), the stored view counter grows by
exactly `n` — one per call — and the video id appears in the user's
watch history exactly once: the append is guarded by a membership check,
so repeated fetches never insert it twice. -/
theorem C9_repeat_get_adds_n_views_history_once (db : DB) (uid vid : String)
    (v : VideoRec) (u : UserRec) (n : Nat)
    (hvalid : isValidObjectId vid = true)
    (hv : db.videos.find? (fun x => x._id == vid) = some v)
    (hu : db.users.find? (fun x => x._id == uid) = some u)
    (hfresh : u.watchHistory.contains vid = false)
    (hn : 1 ≤ n) :
    (viewTimes n db (some uid) vid).videos.find? (fun x => x._id == vid) =
      some { v with views := v.views + n } ∧
    ((viewTimes n db (some uid) vid).users.find? (fun x => x._id == uid)).map
        (fun x => x.watchHistory.count vid) = some 1 := by
  obtain ⟨m, rfl⟩ : ∃ m, n = m + 1 := ⟨n - 1, by omega⟩
  have hv1 := viewStep_videos db (some uid) vid v hvalid hv
  have hu1 := viewStep_users db uid vid v u hvalid hv hu
  rw [hfresh, if_neg (by simp)] at hu1
  have hmem1 :
      (({ u with watchHistory := u.watchHistory ++ [vid] } : UserRec)).watchHistory.contains
        vid = true := by
    simp [List.contains_eq_any_beq, List.any_append]
  have hst := viewTimes_stable m (viewStep db (some uid) vid) uid vid
    { v with views := v.views + 1 } { u with watchHistory := u.watchHistory ++ [vid] }
    hvalid hv1 hu1 hmem1
  constructor
  · have harith : v.views + 1 + m = v.views + (m + 1) := by omega
    simpa [viewTimes, harith] using hst.1
  · have hfound :
        (viewTimes (m + 1) db (some uid) vid).users.find? (fun x => x._id == uid) =
          some { u with watchHistory := u.watchHistory ++ [vid] } := by
      simpa [viewTimes] using hst.2
    rw [hfound, Option.map_some']
    have hnotmem : vid ∉ u.watchHistory := by
      intro hm
      rw [List.contains_eq_any_beq] at hfresh
      have : u.watchHistory.any (vid == ·) = true :=
        List.any_eq_true.mpr ⟨vid, hm, by simp⟩
      simp [this] at hfresh
    have hcount0 : u.watchHistory.count vid = 0 :=
      List.count_eq_zero.mpr hnotmem
    simp [List.count_append, hcount0, List.count_singleton]

/-- C10: `getSingleVideo` never consults `isPublished`: an unpublished
(draft) video that exists in the store is served with status 200 to any
requester, its view counter is incremented, and it is appended to an
authenticated requester's watch history. -/
theorem C10_unpublished_video_served (db : DB) (uid vid : String) (v : VideoRec)
    (u : UserRec)
    (hvalid : isValidObjectId vid = true)
    (hv : db.videos.find? (fun x => x._id == vid) = some v)
    (hdraft : v.isPublished = false)
    (hu : db.users.find? (fun x => x._id == uid) = some u)
    (hfresh : u.watchHistory.contains vid = false) :
    getSingleVideo db (some uid) vid =
      .ok (⟨200, "Video fetched successfully", { v with views := v.views + 1 }⟩,
           viewStep db (some uid) vid) ∧
    (viewStep db (some uid) vid).videos.find? (fun x => x._id == vid) =
      some { v with views := v.views + 1 } ∧
    ((viewStep db (some uid) vid).users.find? (fun x => x._id == uid)).map
        (fun x => x.watchHistory.contains vid) = some true := by
  refine ⟨?_, viewStep_videos db (some uid) vid v hvalid hv, ?_⟩
  · simp only [getSingleVideo, viewStep, hvalid, Bool.not_true, Bool.false_eq_true,
      if_false, hv]
  · have hu1 := viewStep_users db uid vid v u hvalid hv hu
    rw [hfresh, if_neg (by simp)] at hu1
    rw [hu1, Option.map_some']
    simp [List.contains_eq_any_beq, List.any_append]

/-- C9 witness: two sequential fetches of `vDraft` by `uAlice` leave the
counter at 2 and the history containing the video exactly once. -/
theorem C9_witness :
    (viewTimes 2 ⟨[uAlice], [vDraft], []⟩ (some "aaaaaaaaaaaa") "dddddddddddd").videos.find?
        (fun x => x._id == "dddddddddddd") = some { vDraft with views := vDraft.views + 2 } ∧
    ((viewTimes 2 ⟨[uAlice], [vDraft], []⟩ (some "aaaaaaaaaaaa") "dddddddddddd").users.find?
        (fun x => x._id == "aaaaaaaaaaaa")).map
      (fun x => x.watchHistory.count "dddddddddddd") = some 1 :=
  C9_repeat_get_adds_n_views_history_once ⟨[uAlice], [vDraft], []⟩ "aaaaaaaaaaaa"
    "dddddddddddd" vDraft uAlice 2 (by decide) (by decide) (by decide) (by decide)
    (by decide)

/-- C10 witness: the draft video `vDraft` (`isPublished = false`) is
served to `uAlice` with status 200, its counter incremented and the id
recorded in her history. -/
theorem C10_witness :
    getSingleVideo ⟨[uAlice], [vDraft], []⟩ (some "aaaaaaaaaaaa") "dddddddddddd" =
      .ok (⟨200, "Video fetched successfully", { vDraft with views := vDraft.views + 1 }⟩,
           viewStep ⟨[uAlice], [vDraft], []⟩ (some "aaaaaaaaaaaa") "dddddddddddd") ∧
    (viewStep ⟨[uAlice], [vDraft], []⟩ (some "aaaaaaaaaaaa") "dddddddddddd").videos.find?
        (fun x => x._id == "dddddddddddd") = some { vDraft with views := vDraft.views + 1 } ∧
    ((viewStep ⟨[uAlice], [vDraft], []⟩ (some "aaaaaaaaaaaa") "dddddddddddd").users.find?
        (fun x => x._id == "aaaaaaaaaaaa")).map
      (fun x => x.watchHistory.contains "dddddddddddd") = some true :=
  C10_unpublished_video_served ⟨[uAlice], [vDraft], []⟩ "aaaaaaaaaaaa" "dddddddddddd"
    vDraft uAlice (by decide) (by decide) (by decide) (by decide) (by decide)

/-- C1: a stale refresh token — signature-valid under the refresh secret,
decoding to an existing account, but no longer equal to the stored
token — makes `refreshAccessToken` fail with status 500 and message
"Invalid refresh token" (no token pair is issued), not with the 401 the
claim states: the handler's own `ApiError(401, ...)` is swallowed by its
catch block and re-thrown as a 500. -/
theorem C1_stale_refresh_token_yields_500 :
    refreshAccessToken ⟨[uAliceLoggedIn], [], []⟩ (some staleRefreshToken)
        "access-secret" "refresh-secret" 3 =
      .error ⟨500, "Invalid refresh token"⟩ ∧
    jwtVerify staleRefreshToken "refresh-secret" = some "aaaaaaaaaaaa" := by
  constructor <;> rfl

/-- C2 counterexample: registering username `Alice` twice (different
emails) does not make the second call fail with the conflict error — it
succeeds and a second user record is created, because registration stores
the lowercased username while the duplicate check compares the raw
value. -/
theorem C2_counterexample_mixed_case_username :
    regTwiceResult ≠ .error ⟨400, "Username or email already exists"⟩ ∧
    (match regTwiceResult with
     | .ok (_, db2) => db2.users.length
     | .error _ => 0) = 2 := by
  refine ⟨fun h => ?_, by rfl⟩
  rw [show regTwiceResult = register
      ⟨[⟨"aaaaaaaaaaaa", "alice", "a1@mail.example", "secret1", "Alice Example",
          uploadOnCloudinary "alice.png", defaultCoverImage, none, []⟩], [], []⟩
      "bbbbbbbbbbbb" regAliceSecond from rfl] at h
  exact Except.noConfusion h

/-- C2 amended: the second registration fails with the conflict error
(and creates nothing) whenever its raw username equals a stored username
— which, for usernames already in lowercase form, covers registering the
same username twice — or its email equals a stored email, and no field is
blank. -/
theorem C2_amended_exact_match_conflicts (db : DB) (fid : String) (req : RegisterReq)
    (u : UserRec)
    (hmem : u ∈ db.users)
    (hmatch : req.username = some u.username ∨ req.email = some u.email)
    (hblank : ([req.username, req.email, req.password, req.fullName].any
        (fun f => (f.map jsTrim) == some "")) = false) :
    register db fid req = .error ⟨400, "Username or email already exists"⟩ := by
  have hp : (fun x : UserRec =>
      (match req.username with
       | some s => s == x.username
       | none => true) ||
      (match req.email with
       | some s => s == x.email
       | none => true)) u = true := by
    rcases hmatch with h | h <;> rw [h] <;> simp
  obtain ⟨y, hy⟩ := find?_isSome_of_mem (fun x : UserRec =>
    (match req.username with
     | some s => s == x.username
     | none => true) ||
    (match req.email with
     | some s => s == x.email
     | none => true)) db.users u hmem hp
  simp only [register, hblank, Bool.false_eq_true, if_false, findOneByUsernameOrEmail, hy]

/-- C2 amended witness: with `uAlice` (stored username `alice`) present,
a registration with raw username `alice` is rejected as a conflict. -/
theorem C2_amended_witness :
    register ⟨[uAlice], [], []⟩ "bbbbbbbbbbbb" regConflictsWithAlice =
      .error ⟨400, "Username or email already exists"⟩ :=
  C2_amended_exact_match_conflicts ⟨[uAlice], [], []⟩ "bbbbbbbbbbbb"
    regConflictsWithAlice uAlice (by decide) (Or.inl rfl) (by decide)

/-- C3 counterexample: a registration request with the username field
absent entirely is not rejected by the blank-field validation (the
optional-chained trim comparison is false for `undefined`); it fails
later with a generic 500, not with the claimed ValidationError 400. -/
theorem C3_counterexample_missing_username :
    register ⟨[], [], []⟩ "aaaaaaaaaaaa" regMissingUsername =
      .error ⟨500, "Internal server error"⟩ := by
  rfl

/-- C3 amended: a registration in which some field among username, email,
password, fullName is present but blank after trimming fails with the 400
"All fields are required" error, and no user record is created. -/
theorem C3_amended_blank_field_rejected (db : DB) (fid : String) (req : RegisterReq)
    (h : ∃ f ∈ [req.username, req.email, req.password, req.fullName],
        ∃ s, f = some s ∧ jsTrim s = "") :
    register db fid req = .error ⟨400, "All fields are required"⟩ := by
  have hany : ([req.username, req.email, req.password, req.fullName].any
      (fun f => (f.map jsTrim) == some "")) = true := by
    rcases h with ⟨f, hf, s, rfl, hs⟩
    exact List.any_eq_true.mpr ⟨some s, hf, by simp [hs]⟩
  simp [register, hany]

/-- C3 amended witness: a blank (whitespace-only) fullName is rejected
with the 400 validation error. -/
theorem C3_amended_witness :
    register ⟨[], [], []⟩ "cccccccccccc" regBlankFullName =
      .error ⟨400, "All fields are required"⟩ :=
  C3_amended_blank_field_rejected ⟨[], [], []⟩ "cccccccccccc" regBlankFullName
    ⟨some "   ", by decide, "   ", rfl, by decide⟩

/-- C4: with a subscription edge from `uAlice` to `uChan` present, the
channel profile computed for `uAlice` still reports
`isSubscribed = false`: the pipeline tests the requester's id for
membership in the array of whole subscription documents from the
wrong-direction lookup, which never holds. -/
theorem C4_isSubscribed_false_despite_edge :
    getUserChannelProfile ⟨[uAlice, uChan], [], [subAC]⟩ "aaaaaaaaaaaa" "chan" =
      .ok ⟨200, "success", ⟨uChan, 1, 0, false⟩⟩ ∧
    (⟨[uAlice, uChan], [], [subAC]⟩ : DB).subs.any
      (fun s => s.subscriber == "aaaaaaaaaaaa" && s.channel == uChan._id) = true := by
  constructor <;> rfl

/-- C5: fetching a well-formed video id that matches no stored video
fails with status 500 "Failed to fetch video", not the claimed 404: the
handler's `ApiError(404, "Video not found")` is thrown inside its own try
block and the blanket catch replaces it with the 500. -/
theorem C5_missing_video_yields_500 :
    getSingleVideo ⟨[uAlice], [vDraft], []⟩ (some "aaaaaaaaaaaa") "eeeeeeeeeeee" =
      .error ⟨500, "Failed to fetch video"⟩ ∧
    isValidObjectId "eeeeeeeeeeee" = true := by
  constructor <;> rfl

/-- C6: a video-list request with a well-formed userId fails with a
generic 500 instead of returning an owner-scoped page: the owner-scoping
branch references `mongoose`, which the file never imports, raising a
ReferenceError for every truthy userId. -/
theorem C6_owner_scoped_list_yields_500 :
    getAllTheVideos ⟨[uAlice], [vDraft], []⟩ 1 10 "createdAt" "desc" ""
        (some "cccccccccccc") = .error ⟨500, "Internal server error"⟩ ∧
    isValidObjectId "cccccccccccc" = true := by
  constructor <;> rfl

/-- C7 counterexample: on the subscribe branch the 200 response's payload
is the created subscription document, not the boolean `true` the claim
states — the extra `true` argument at the call site is discarded by the
three-parameter envelope constructor. -/
theorem C7_counterexample_subscribe_payload_is_document :
    toggleSubscription ⟨[uAlice, uChan], [], []⟩ "aaaaaaaaaaaa" "cccccccccccc"
        "tttttttttttt" =
      .ok (⟨200, "Subscribed successfully",
            .sub ⟨"tttttttttttt", "aaaaaaaaaaaa", "cccccccccccc"⟩⟩,
           ⟨[uAlice, uChan], [], [⟨"tttttttttttt", "aaaaaaaaaaaa", "cccccccccccc"⟩]⟩) ∧
    TogglePayload.sub ⟨"tttttttttttt", "aaaaaaaaaaaa", "cccccccccccc"⟩ ≠
      TogglePayload.bool true := by
  exact ⟨rfl, fun h => TogglePayload.noConfusion h⟩

/-- C7 amended: for a valid channel id, `toggleSubscription` deletes an
existing edge and reports the boolean `false`; with no edge present it
creates one and reports the created subscription document (not the
boolean `true`) as the payload of a 200 response. -/
theorem C7_amended_toggle_semantics (db : DB) (uid cid fid : String) (s : SubRec)
    (hvalid : isValidObjectId cid = true) :
    (db.subs.find? (fun x => x.subscriber == uid && x.channel == cid) = some s →
      toggleSubscription db uid cid fid =
        .ok (⟨200, "Unsubscribed successfully", .bool false⟩,
             { db with subs := db.subs.filter (fun x => x._id != s._id) })) ∧
    (db.subs.find? (fun x => x.subscriber == uid && x.channel == cid) = none →
      toggleSubscription db uid cid fid =
        .ok (⟨200, "Subscribed successfully", .sub ⟨fid, uid, cid⟩⟩,
             { db with subs := db.subs ++ [⟨fid, uid, cid⟩] })) := by
  constructor <;> intro h <;>
    simp only [toggleSubscription, hvalid, Bool.not_true, Bool.false_eq_true, if_false, h]

/-- C7 amended witness: with the edge `subAC` present, toggling
unsubscribes and reports `false`; the instantiated subscribe branch is
vacuously available at the same state. -/
theorem C7_amended_witness :
    ((⟨[uAlice, uChan], [], [subAC]⟩ : DB).subs.find?
        (fun x => x.subscriber == "aaaaaaaaaaaa" && x.channel == "cccccccccccc") =
          some subAC →
      toggleSubscription ⟨[uAlice, uChan], [], [subAC]⟩ "aaaaaaaaaaaa" "cccccccccccc"
          "tttttttttttt" =
        .ok (⟨200, "Unsubscribed successfully", .bool false⟩,
             { (⟨[uAlice, uChan], [], [subAC]⟩ : DB) with
                 subs := [subAC].filter (fun x => x._id != subAC._id) })) ∧
    ((⟨[uAlice, uChan], [], [subAC]⟩ : DB).subs.find?
        (fun x => x.subscriber == "aaaaaaaaaaaa" && x.channel == "cccccccccccc") =
          none →
      toggleSubscription ⟨[uAlice, uChan], [], [subAC]⟩ "aaaaaaaaaaaa" "cccccccccccc"
          "tttttttttttt" =
        .ok (⟨200, "Subscribed successfully",
              .sub ⟨"tttttttttttt", "aaaaaaaaaaaa", "cccccccccccc"⟩⟩,
             { (⟨[uAlice, uChan], [], [subAC]⟩ : DB) with
                 subs := [subAC] ++ [⟨"tttttttttttt", "aaaaaaaaaaaa", "cccccccccccc"⟩] })) :=
  C7_amended_toggle_semantics ⟨[uAlice, uChan], [], [subAC]⟩ "aaaaaaaaaaaa"
    "cccccccccccc" "tttttttttttt" subAC (by decide)

/-- C8 counterexample: when the authenticated user's record cannot be
found, `getWatchHistory` does not return an empty-result success
response: it returns a 404 envelope whose `success` flag is false. -/
theorem C8_counterexample_missing_user_404 :
    (getWatchHistory ⟨[], [], []⟩ "aaaaaaaaaaaa").statusCode = 404 ∧
    (getWatchHistory ⟨[], [], []⟩ "aaaaaaaaaaaa").success = false := by
  constructor <;> rfl

/-- C8 amended: if the user's watch history (when the user is found) is
empty, the handler returns the 200 empty-result response; if the user
cannot be found, it returns — not throws — a 404 "Watch history not
found" envelope, which is not a success response. -/
theorem C8_amended_history (db : DB) (uid : String)
    (hempty : ∀ u ∈ db.users, u._id = uid → u.watchHistory = []) :
    if (db.users.find? (fun x => x._id == uid)).isSome then
      getWatchHistory db uid = ⟨200, "success", some []⟩
    else
      (getWatchHistory db uid).statusCode = 404 ∧
      (getWatchHistory db uid).success = false := by
  cases hfind : db.users.find? (fun x => x._id == uid) with
  | none => simp [hfind, getWatchHistory, ApiResponse.success]
  | some u =>
    have hu : u.watchHistory = [] := by
      have hmem := List.mem_of_find?_eq_some hfind
      have hp := List.find?_some hfind
      exact hempty u hmem (by simpa using hp)
    simp [hfind, getWatchHistory, hu]

/-- C8 amended witness: `uAlice` has an empty watch history and receives
the 200 empty-result response. -/
theorem C8_amended_witness :
    if ((⟨[uAlice], [], []⟩ : DB).users.find? (fun x => x._id == "aaaaaaaaaaaa")).isSome then
      getWatchHistory ⟨[uAlice], [], []⟩ "aaaaaaaaaaaa" = ⟨200, "success", some []⟩
    else
      (getWatchHistory ⟨[uAlice], [], []⟩ "aaaaaaaaaaaa").statusCode = 404 ∧
      (getWatchHistory ⟨[uAlice], [], []⟩ "aaaaaaaaaaaa").success = false :=
  C8_amended_history ⟨[uAlice], [], []⟩ "aaaaaaaaaaaa" (by decide)

end YouTweet
